import Mathlib

/-!
Verification of the rauk-inventory client library.

The development shallowly embeds the repository code:
- Documents (queries, updates, options, items, response bodies) are modelled
  by the JSON-like type `Doc`; a JavaScript object literal becomes `Doc.obj`
  with its key order preserved, an array becomes `Doc.arr`.
- Each public operation of `RaukInventoryClient` (src/src/core/rauk-client.ts)
  and of `RaukInventory` (src/src/index.ts, first revision) is embedded as the
  command tuple (`List Doc`) it hands to the private `request` method.
- The `request` method itself is embedded in two parts: the HTTP request value
  it passes to `fetch` (`buildRequest` / `requestsIssued`), and the
  classification of the transport outcome into the value the caller observes
  (`requestTry` for the try block, `request` for the try/catch as a whole).
- The constructor is embedded as a function from the construction argument
  object to `Except String Client`, mirroring the emptiness check and the
  default base URL.
-/

namespace Rauk

/-- A JSON-like document value: the shallow embedding of the dynamic
JavaScript values (queries, updates, options, items, response bodies) that
flow through the client. Object key order is preserved, as in JavaScript. -/
inductive Doc where
  | str (s : String)
  | num (n : Int)
  | bool (b : Bool)
  | null
  | arr (elems : List Doc)
  | obj (fields : List (String × Doc))
deriving Repr, Inhabited

mutual
/-- JSON serialization of a document, mirroring JSON.stringify on the embedded
values (string escaping is not modelled; no key appearing in the development
needs escapes). -/
def Doc.serialize : Doc → String
  | .str s => "\"" ++ s ++ "\""
  | .num n => toString n
  | .bool b => if b then "true" else "false"
  | .null => "null"
  | .arr es => "[" ++ Doc.serializeElems es ++ "]"
  | .obj fs => "\x7b" ++ Doc.serializeFields fs ++ "\x7d"
/-- Comma-separated serialization of array elements, in order. -/
def Doc.serializeElems : List Doc → String
  | [] => ""
  | [d] => Doc.serialize d
  | d :: rest => Doc.serialize d ++ "," ++ Doc.serializeElems rest
/-- Comma-separated serialization of object fields, in key order. -/
def Doc.serializeFields : List (String × Doc) → String
  | [] => ""
  | [(k, v)] => "\"" ++ k ++ "\":" ++ Doc.serialize v
  | (k, v) :: rest => "\"" ++ k ++ "\":" ++ Doc.serialize v ++ "," ++ Doc.serializeFields rest
end

/-- Serialization of a command tuple: JSON.stringify applied to the
requestArray (a JavaScript array). -/
def serializeTuple (tuple : List Doc) : String :=
  (Doc.arr tuple).serialize

/-- Assignment of a key in a JavaScript object literal built by spread, as in
the expression with spread of options followed by the limit key: the value of
an already-present key is overwritten in place (the key keeps its original
position), an absent key is appended at the end. -/
def setKey : List (String × Doc) → String → Doc → List (String × Doc)
  | [], k, v => [(k, v)]
  | (k', v') :: rest, k, v =>
      if k' = k then (k, v) :: rest else (k', v') :: setKey rest k v

/-- First-occurrence key lookup in an object document (JavaScript property
access); `none` on non-objects and missing keys. -/
def Doc.lookup : Doc → String → Option Doc
  | .obj fields, k => (fields.find? (fun kv => kv.1 = k)).map (·.2)
  | _, _ => none

/-- The object passed as options by findOne and findOneFlexible: the spread of
the caller-supplied options followed by the limit-one assignment. A missing
caller options object spreads to nothing, leaving only the limit key. -/
def spreadLimitOne : Option Doc → Doc
  | some (Doc.obj fields) => Doc.obj (setKey fields "limit" (Doc.num 1))
  | _ => Doc.obj [("limit", Doc.num 1)]

/-- The construction argument object of both client classes:
apiKeyId, apiSecret, apiPublicKey, and the optional apiBaseUrl. -/
structure ClientConfig where
  apiKeyId : String
  apiSecret : String
  apiPublicKey : String
  apiBaseUrl : Option String := none
deriving Repr, DecidableEq

/-- The credential triple held by a constructed client, together with the
resolved base URL. -/
structure Client where
  apiKeyId : String
  apiSecret : String
  apiPublicKey : String
  apiBaseUrl : String
deriving Repr, DecidableEq

/-- Modelled from the spec: the Signer (src/utils/sign-request.ts and
src/utils/api-request.ts are not under src/; only their import sites are).
Per the spec it is a pure deterministic keyed authentication tag over the
entire serialized command tuple plus the key identifier and public key,
combined with the shared secret. The digest primitive itself is abstracted
as tagged concatenation, since no claim depends on the digest algorithm —
only on the signature being a function of exactly this data. -/
def signRequest (client : Client) (requestArray : List Doc) : String :=
  "mac(" ++ client.apiKeyId ++ "," ++ client.apiPublicKey ++ ","
    ++ client.apiSecret ++ "," ++ serializeTuple requestArray ++ ")"

/-- An HTTP request value, as handed to fetch: URL, method, optional body,
and header list. -/
structure HttpRequest where
  url : String
  method : String
  body : Option String
  headers : List (String × String)
deriving Repr, DecidableEq

namespace RaukInventoryClient

/-- The constructor of RaukInventoryClient (src/src/core/rauk-client.ts,
lines 25-45): throws when any of the three credentials is falsy (for these
string fields: empty), otherwise stores them and the base URL, which defaults
to the fixed production host. The RaukInventory constructor in
src/src/index.ts (both revisions) has the identical body. -/
def construct (cfg : ClientConfig) : Except String Client :=
  if cfg.apiKeyId = "" ∨ cfg.apiSecret = "" ∨ cfg.apiPublicKey = "" then
    .error "apiKeyId, apiSecret and apiPublicKey are required"
  else
    .ok { apiKeyId := cfg.apiKeyId
          apiSecret := cfg.apiSecret
          apiPublicKey := cfg.apiPublicKey
          apiBaseUrl := cfg.apiBaseUrl.getD "https://inventory.rauk.app" }

/-- HTTP requests issued while the constructor runs: the constructor body
(src/src/core/rauk-client.ts lines 25-45) contains no fetch call, so the
trace is empty for every argument. -/
def constructorRequests (_cfg : ClientConfig) : List HttpRequest := []

/-- The HTTP request the request method passes to fetch
(src/src/core/rauk-client.ts lines 55-62): a POST to baseUrl/query whose
body is JSON.stringify of the requestArray and whose headers carry the
signature computed over that same requestArray. Identical in
RaukInventory.request, first revision (src/src/index.ts lines 56-63). -/
def buildRequest (client : Client) (requestArray : List Doc) : HttpRequest :=
  { url := client.apiBaseUrl ++ "/query"
    method := "POST"
    body := some (serializeTuple requestArray)
    headers := [("Rai-Signature", signRequest client requestArray),
                ("Content-Type", "application/json")] }

/-- HTTP requests issued by one invocation of the request method: the body
contains exactly one fetch call. -/
def requestsIssued (client : Client) (requestArray : List Doc) : List HttpRequest :=
  [buildRequest client requestArray]

/-- The transport outcome of the single fetch call inside the request method:
either the fetch resolved with a response (status plus a body that is JSON
or not), or the fetch itself rejected before any response was received. -/
inductive TransportOutcome where
  | resp (status : Nat) (jsonBody : Option Doc)
  | threw (message : String)
deriving Repr

/-- Response.ok: true exactly for a 2xx status. -/
def statusOk (status : Nat) : Bool :=
  200 ≤ status && status ≤ 299

/-- JavaScript property access error.message on the parsed error body:
the string value under the message key of the error object, or a placeholder
for the undefined value otherwise (Error(undefined) produces an unspecified
message; it is discarded by the catch block in any case). -/
def errorMessageOf (body : Doc) : String :=
  match (body.lookup "error").bind (fun e => e.lookup "message") with
  | some (Doc.str s) => s
  | _ => "undefined"

/-- The try block of the request method (src/src/core/rauk-client.ts lines
54-70): on a 2xx response the parsed body is returned; on a non-2xx response
the body is parsed (a rejection of response.json on an unparseable body
propagates as a thrown parse error) and Error(jsonError.error.message) is
thrown; a rejection of fetch itself propagates. Identical in
RaukInventory.request, first revision (src/src/index.ts lines 55-72). -/
def requestTry : TransportOutcome → Except String Doc
  | .resp status (some body) =>
      if statusOk status then .ok body else .error (errorMessageOf body)
  | .resp status none =>
      if statusOk status then .ok Doc.null else .error "invalid json"
  | .threw message => .error message

/-- The request method as the caller observes it (src/src/core/rauk-client.ts
lines 47-75): the try block, with every error it raises replaced by the catch
block with Error of the fixed string. On a 2xx response with an unparseable
body the embedded try block returns Doc.null for the parsed value; this case
is outside every claim (all claims concern 2xx-with-JSON, non-2xx, or
transport throw). Identical in RaukInventory.request, first revision
(src/src/index.ts lines 48-77). -/
def request (outcome : TransportOutcome) : Except String Doc :=
  match requestTry outcome with
  | .ok v => .ok v
  | .error _ => .error "Failed to request"

/-- Command tuple built by create (src/src/core/rauk-client.ts lines
105-110). -/
def create (item : Doc) (options : Option Doc) : List Doc :=
  match options with
  | some o => [Doc.str "insertOne", item, o]
  | none => [Doc.str "insertOne", item]

/-- Command tuple built by find (src/src/core/rauk-client.ts lines
130-135). -/
def find (query : Doc) (options : Option Doc) : List Doc :=
  match options with
  | some o => [Doc.str "find", query, o]
  | none => [Doc.str "find", query]

/-- Command tuple built by findOne (src/src/core/rauk-client.ts lines
152-155): it delegates to find with the spread of the caller options and
limit set to one. -/
def findOne (query : Doc) (options : Option Doc) : List Doc :=
  find query (some (spreadLimitOne options))

/-- The value findOne returns from the result sequence produced by find
(src/src/core/rauk-client.ts line 154): the first element when the length is
positive, null otherwise. -/
def findOneResult (results : List Doc) : Option Doc :=
  if h : 0 < results.length then some (results.get ⟨0, h⟩) else none

/-- Command tuple built by update (src/src/core/rauk-client.ts lines
174-183). -/
def update (query : Doc) (upd : Doc) (options : Option Doc) : List Doc :=
  match options with
  | some o => [Doc.str "findOneAndUpdate", query, upd, o]
  | none => [Doc.str "findOneAndUpdate", query, upd]

/-- The synthetic update document of the soft-delete operation
(src/src/core/rauk-client.ts lines 202-203). -/
def softDeleteDoc : Doc :=
  Doc.obj [("deleted", Doc.obj [("status", Doc.bool true)])]

/-- Command tuple built by delete, the soft-delete operation
(src/src/core/rauk-client.ts lines 200-205). -/
def delete (query : Doc) (options : Option Doc) : List Doc :=
  match options with
  | some o => [Doc.str "findOneAndUpdate", query, softDeleteDoc, o]
  | none => [Doc.str "findOneAndUpdate", query, softDeleteDoc]

/-- Command tuple built by aggregate (src/src/core/rauk-client.ts lines
216-221). -/
def aggregate (pipeline : Doc) (options : Option Doc) : List Doc :=
  match options with
  | some o => [Doc.str "aggregate", pipeline, o]
  | none => [Doc.str "aggregate", pipeline]

/-- Command tuple built by bulkWrite (src/src/core/rauk-client.ts lines
245-250). -/
def bulkWrite (operations : Doc) (options : Option Doc) : List Doc :=
  match options with
  | some o => [Doc.str "bulkWrite", operations, o]
  | none => [Doc.str "bulkWrite", operations]

/-- Command tuple built by updateMany (src/src/core/rauk-client.ts lines
268-277). -/
def updateMany (query : Doc) (upd : Doc) (options : Option Doc) : List Doc :=
  match options with
  | some o => [Doc.str "updateMany", query, upd, o]
  | none => [Doc.str "updateMany", query, upd]

/-- Command tuple built by deleteOne, the hard single-delete operation
(src/src/core/rauk-client.ts lines 294-299). -/
def deleteOne (query : Doc) (options : Option Doc) : List Doc :=
  match options with
  | some o => [Doc.str "deleteOne", query, o]
  | none => [Doc.str "deleteOne", query]

/-- Command tuple built by deleteMany, the hard multi-delete operation
(src/src/core/rauk-client.ts lines 316-321). -/
def deleteMany (query : Doc) (options : Option Doc) : List Doc :=
  match options with
  | some o => [Doc.str "deleteMany", query, o]
  | none => [Doc.str "deleteMany", query]

/-- The bulk operations array built by updateBatch
(src/src/core/rauk-client.ts lines 337-342): one updateOne entry per
query-update pair, with filter the query and update the update document. -/
def updateBatchOps (updates : List (Doc × Doc)) : List Doc :=
  updates.map (fun qu =>
    Doc.obj [("updateOne", Doc.obj [("filter", qu.1), ("update", qu.2)])])

/-- Command tuple built by updateBatch (src/src/core/rauk-client.ts lines
336-344): it delegates to bulkWrite on the mapped operations array. -/
def updateBatch (updates : List (Doc × Doc)) (options : Option Doc) : List Doc :=
  bulkWrite (Doc.arr (updateBatchOps updates)) options

end RaukInventoryClient

namespace RaukInventory

/-- The constructor of the RaukInventory class (src/src/index.ts, first
revision, lines 27-46): its body is identical to the RaukInventoryClient
constructor. It checks only credential emptiness; the class keeps no
instance registry and no static state, so nothing in it depends on whether
another instance already exists. -/
def construct (cfg : ClientConfig) : Except String Client :=
  RaukInventoryClient.construct cfg

/-- Command tuple built by findFlexible (src/src/index.ts lines 179-184):
the same find command shape as find. -/
def findFlexible (query : Doc) (options : Option Doc) : List Doc :=
  match options with
  | some o => [Doc.str "find", query, o]
  | none => [Doc.str "find", query]

/-- Command tuple built by findOneFlexible (src/src/index.ts lines 191-194):
it delegates to findFlexible with the spread of the caller options and limit
set to one. -/
def findOneFlexible (query : Doc) (options : Option Doc) : List Doc :=
  findFlexible query (some (spreadLimitOne options))

/-- The value findOneFlexible returns from the result sequence
(src/src/index.ts line 193): first element when nonempty, null otherwise. -/
def findOneFlexibleResult (results : List Doc) : Option Doc :=
  if h : 0 < results.length then some (results.get ⟨0, h⟩) else none

/-- The bulk operations array built by updateBatch of the RaukInventory
class (src/src/index.ts lines 377-383): each entry has filter the query but
its update field is the object literal with the shorthand update property,
so the update document ends up nested under an update key. -/
def updateBatchOps (updates : List (Doc × Doc)) : List Doc :=
  updates.map (fun qu =>
    Doc.obj [("updateOne",
      Doc.obj [("filter", qu.1), ("update", Doc.obj [("update", qu.2)])])])

/-- Command tuple built by RaukInventory.updateBatch (src/src/index.ts lines
376-387): it delegates to bulkWrite (same shape as in RaukInventoryClient)
on its own mapped operations array. -/
def updateBatch (updates : List (Doc × Doc)) (options : Option Doc) : List Doc :=
  RaukInventoryClient.bulkWrite (Doc.arr (updateBatchOps updates)) options

end RaukInventory

namespace RaukInventoryRevB

/-- The HTTP request the second revision of RaukInventory.request passes to
fetch (src/src/index.ts lines 448-454, after the revision separator): a POST
to baseUrl/query with an Authorization Bearer header carrying the signature
and no body field at all — the serialized command tuple is never attached. -/
def buildRequest (client : Client) (requestArray : List Doc) : HttpRequest :=
  { url := client.apiBaseUrl ++ "/query"
    method := "POST"
    body := none
    headers := [("Authorization", "Bearer " ++ signRequest client requestArray),
                ("Content-Type", "application/json")] }

end RaukInventoryRevB

/-! Concrete fixtures used in the closed theorems below. They come from the
specification examples and the repository tests. -/

/-- The query document with sku ITEM-001, as in the repository tests. -/
def q0 : Doc := Doc.obj [("sku", Doc.str "ITEM-001")]

/-- The update document with packageQuantity 20, as in the repository
examples. -/
def u0 : Doc := Doc.obj [("packageQuantity", Doc.num 20)]

/-- The HTTP 400 ValidationException body of the specification example:
success false, error with name ValidationException and one errors entry for
the brandDetails property. -/
def validationBody400 : Doc :=
  Doc.obj
    [("success", Doc.bool false),
     ("error", Doc.obj
       [("name", Doc.str "ValidationException"),
        ("errors", Doc.arr
          [Doc.obj
            [("property", Doc.str "brandDetails"),
             ("constraints", Doc.arr
               [Doc.str "brandDetails should not be null or undefined"]),
             ("children", Doc.arr [])]])])]

/-- The construction arguments used throughout the repository tests. -/
def testConfig : ClientConfig :=
  { apiKeyId := "test-key"
    apiSecret := "test-secret"
    apiPublicKey := "test-public"
    apiBaseUrl := some "https://inventory.rauk.local" }

/-- Looking up the assigned key after a spread-with-assignment yields the
assigned value, whatever the original fields held. -/
theorem lookup_setKey (fields : List (String × Doc)) (k : String) (v : Doc) :
    (Doc.obj (setKey fields k v)).lookup k = some v := by
  induction fields with
  | nil => simp [setKey, Doc.lookup]
  | cons kv rest ih =>
      obtain ⟨k', v'⟩ := kv
      by_cases hk : k' = k
      · simp [setKey, hk, Doc.lookup]
      · simpa [setKey, hk, Doc.lookup, List.find?] using ih

/-- The merged options object of findOne always carries limit one. -/
theorem lookup_spreadLimitOne (options : Option Doc) :
    (spreadLimitOne options).lookup "limit" = some (Doc.num 1) := by
  cases options with
  | none => simp [spreadLimitOne, Doc.lookup, List.find?]
  | some d =>
      cases d with
      | obj fields => simpa [spreadLimitOne] using lookup_setKey fields "limit" (Doc.num 1)
      | str s => simp [spreadLimitOne, Doc.lookup, List.find?]
      | num n => simp [spreadLimitOne, Doc.lookup, List.find?]
      | bool b => simp [spreadLimitOne, Doc.lookup, List.find?]
      | null => simp [spreadLimitOne, Doc.lookup, List.find?]
      | arr es => simp [spreadLimitOne, Doc.lookup, List.find?]

/-- C1. The claim: an HTTP 400 response whose body carries
error.name ValidationException and an error.errors array makes the call
reject with a ValidationError carrying the body errors, statusCode 400 and
the getAllMessages and getErrorsForProperty accessors. The code under src/
does the opposite: at exactly that response (the specification example
body) the request method of both RaukInventoryClient and the first
RaukInventory revision rejects with the generic Error of the fixed string,
carrying no validation detail at all, because the catch block replaces the
thrown Error(jsonError.error.message). -/
theorem validation_exception_collapsed_to_generic_failure :
    RaukInventoryClient.request
        (RaukInventoryClient.TransportOutcome.resp 400 (some validationBody400))
      = Except.error "Failed to request" := rfl

/-- C5. The claim: a transport-level throw before any response makes the
call reject with a NetworkError with the fixed network-failure message and
context.originalError equal to the thrown message. The code under src/
instead rejects with the generic Error of the fixed string at exactly that
outcome (here the thrown message of the repository test), discarding the
original message entirely. -/
theorem transport_throw_collapsed_to_generic_failure :
    RaukInventoryClient.request
        (RaukInventoryClient.TransportOutcome.threw "fetch failed")
      = Except.error "Failed to request" := rfl

/-- C10. Every failure outcome of the request method — any non-2xx response
whatever its status and body (JSON error body or unparseable), and any
transport-level throw whatever its message — is observed by the caller as
the one generic error with message exactly the fixed string: the catch
block replaces every error raised inside the method, so neither the status
code nor the server message nor any validation detail reaches the caller. -/
theorem request_failures_all_generic (status : Nat) (body : Option Doc)
    (message : String) (h : RaukInventoryClient.statusOk status = false) :
    RaukInventoryClient.request (RaukInventoryClient.TransportOutcome.resp status body)
        = Except.error "Failed to request"
    ∧ RaukInventoryClient.request (RaukInventoryClient.TransportOutcome.threw message)
        = Except.error "Failed to request" := by
  constructor
  · cases body <;>
      simp [RaukInventoryClient.request, RaukInventoryClient.requestTry, h]
  · rfl

/-- Witness for C10 at status 500, an unparseable body, and the thrown
message of the repository test. -/
theorem request_failures_all_generic_witness :
    RaukInventoryClient.statusOk 500 = false
    ∧ RaukInventoryClient.request (RaukInventoryClient.TransportOutcome.resp 500 none)
        = Except.error "Failed to request"
    ∧ RaukInventoryClient.request (RaukInventoryClient.TransportOutcome.threw "boom")
        = Except.error "Failed to request" :=
  ⟨by decide,
   (request_failures_all_generic 500 none "boom" (by decide)).1,
   (request_failures_all_generic 500 none "boom" (by decide)).2⟩

/-- C2. At the failing input (one pair: the ITEM-001 query with the
packageQuantity update), RaukInventory.updateBatch (src/src/index.ts) emits
a bulkWrite command whose single updateOne entry carries as its update field
the update document wrapped under an extra update key — an object distinct
from the update document itself — while RaukInventoryClient.updateBatch
(src/src/core/rauk-client.ts) emits the entry the claim describes, with the
update field equal to the update document. -/
theorem index_updateBatch_wraps_update_document :
    RaukInventory.updateBatch [(q0, u0)] none
        = [Doc.str "bulkWrite",
           Doc.arr [Doc.obj [("updateOne",
             Doc.obj [("filter", q0), ("update", Doc.obj [("update", u0)])])]]]
    ∧ RaukInventoryClient.updateBatch [(q0, u0)] none
        = [Doc.str "bulkWrite",
           Doc.arr [Doc.obj [("updateOne",
             Doc.obj [("filter", q0), ("update", u0)])]]]
    ∧ Doc.obj [("update", u0)] ≠ u0 := by
  refine ⟨rfl, rfl, ?_⟩
  simp [u0]

/-- C3. findOne delegates to find with the spread of the caller options and
limit assigned, the merged options always carry limit exactly one whatever
limit the caller supplied, and the result mapping returns the first element
of the result sequence and null (none, never a throw: the mapping is total)
on the empty sequence; likewise findOneFlexible via findFlexible. -/
theorem findOne_forces_limit_one_and_returns_head_or_null
    (query : Doc) (options : Option Doc) (x : Doc) (xs : List Doc) :
    RaukInventoryClient.findOne query options
        = RaukInventoryClient.find query (some (spreadLimitOne options))
    ∧ (spreadLimitOne options).lookup "limit" = some (Doc.num 1)
    ∧ RaukInventoryClient.findOneResult [] = none
    ∧ RaukInventoryClient.findOneResult (x :: xs) = some x
    ∧ RaukInventory.findOneFlexible query options
        = RaukInventory.findFlexible query (some (spreadLimitOne options))
    ∧ RaukInventory.findOneFlexibleResult [] = none
    ∧ RaukInventory.findOneFlexibleResult (x :: xs) = some x :=
  ⟨rfl, lookup_spreadLimitOne options, rfl,
   by simp [RaukInventoryClient.findOneResult],
   rfl, rfl,
   by simp [RaukInventory.findOneFlexibleResult]⟩

/-- C4. The primary request method (RaukInventoryClient, and the first
RaukInventory revision, which is identical) issues exactly one HTTP POST to
baseUrl/query whose body is the JSON serialization of the exact command
tuple the signature was computed over, with the signature attached as the
Rai-Signature header; but the second RaukInventory revision
(src/src/index.ts after the revision separator) issues its POST with no
body at all — here evaluated at the find command of the repository test —
so the serialized tuple never travels, contradicting the claim. -/
theorem post_body_is_signed_tuple_but_revB_sends_none
    (client : Client) (tuple : List Doc) :
    RaukInventoryClient.requestsIssued client tuple
        = [{ url := client.apiBaseUrl ++ "/query"
             method := "POST"
             body := some (serializeTuple tuple)
             headers := [("Rai-Signature", signRequest client tuple),
                         ("Content-Type", "application/json")] }]
    ∧ (RaukInventoryRevB.buildRequest client (RaukInventoryClient.find q0 none)).body
        = none :=
  ⟨rfl, rfl⟩

/-- C6. For every construction argument object: when any of apiKeyId,
apiSecret, apiPublicKey is empty, construction fails with the required-
credentials error while the constructor trace holds no HTTP request; when
all three are non-empty it succeeds, the stored base URL being the supplied
one or, when omitted, the fixed production host — the constructor trace
again empty. -/
theorem constructor_validates_eagerly_without_network (cfg : ClientConfig) :
    ((cfg.apiKeyId = "" ∨ cfg.apiSecret = "" ∨ cfg.apiPublicKey = "") →
        RaukInventoryClient.construct cfg
            = Except.error "apiKeyId, apiSecret and apiPublicKey are required"
        ∧ RaukInventoryClient.constructorRequests cfg = [])
    ∧ (cfg.apiKeyId ≠ "" → cfg.apiSecret ≠ "" → cfg.apiPublicKey ≠ "" →
        RaukInventoryClient.construct cfg
            = Except.ok { apiKeyId := cfg.apiKeyId
                          apiSecret := cfg.apiSecret
                          apiPublicKey := cfg.apiPublicKey
                          apiBaseUrl := cfg.apiBaseUrl.getD "https://inventory.rauk.app" }
        ∧ RaukInventoryClient.constructorRequests cfg = []) := by
  constructor
  · intro h
    exact ⟨by simp [RaukInventoryClient.construct, h], rfl⟩
  · intro h1 h2 h3
    refine ⟨?_, rfl⟩
    simp [RaukInventoryClient.construct, h1, h2, h3]

/-- Witness for C6: an empty apiKeyId fails with the required-credentials
error; the full test credentials with the base URL omitted succeed with the
fixed production host. -/
theorem constructor_validates_eagerly_without_network_witness :
    RaukInventoryClient.construct
        { apiKeyId := "", apiSecret := "s", apiPublicKey := "p" }
        = Except.error "apiKeyId, apiSecret and apiPublicKey are required"
    ∧ RaukInventoryClient.construct
        { apiKeyId := "test-key", apiSecret := "test-secret", apiPublicKey := "test-public" }
        = Except.ok { apiKeyId := "test-key", apiSecret := "test-secret"
                      apiPublicKey := "test-public"
                      apiBaseUrl := "https://inventory.rauk.app" } :=
  ⟨((constructor_validates_eagerly_without_network _).1 (Or.inl rfl)).1,
   ((constructor_validates_eagerly_without_network _).2
      (by decide) (by decide) (by decide)).1⟩

/-- C7. The RaukInventory constructor under src/ (src/src/index.ts lines
27-46) is a pure function of its argument object with no instance registry
and no static state: at the repository test configuration it returns the
constructed client, and since nothing in the class records an existing
instance, a second construction evaluates the same function at the same
argument and succeeds identically instead of failing with the
already-initialized condition; no static-style entry points exist in the
class at all. -/
theorem src_constructor_accepts_repeated_construction :
    RaukInventory.construct testConfig
      = Except.ok { apiKeyId := "test-key", apiSecret := "test-secret"
                    apiPublicKey := "test-public"
                    apiBaseUrl := "https://inventory.rauk.local" } := rfl

/-- C8. For every operation and all arguments, the tuple encoded with
options supplied equals the tuple encoded without options with the options
object appended as the last element — so options, when supplied, are always
last, and the options-free tuple is strictly shorter (one element shorter,
never padded with a placeholder). -/
theorem options_last_or_tuple_shorter
    (item query upd ops pipeline o : Doc) (updates : List (Doc × Doc)) :
    RaukInventoryClient.create item (some o)
        = RaukInventoryClient.create item none ++ [o]
    ∧ RaukInventoryClient.find query (some o)
        = RaukInventoryClient.find query none ++ [o]
    ∧ RaukInventoryClient.update query upd (some o)
        = RaukInventoryClient.update query upd none ++ [o]
    ∧ RaukInventoryClient.updateMany query upd (some o)
        = RaukInventoryClient.updateMany query upd none ++ [o]
    ∧ RaukInventoryClient.delete query (some o)
        = RaukInventoryClient.delete query none ++ [o]
    ∧ RaukInventoryClient.deleteOne query (some o)
        = RaukInventoryClient.deleteOne query none ++ [o]
    ∧ RaukInventoryClient.deleteMany query (some o)
        = RaukInventoryClient.deleteMany query none ++ [o]
    ∧ RaukInventoryClient.aggregate pipeline (some o)
        = RaukInventoryClient.aggregate pipeline none ++ [o]
    ∧ RaukInventoryClient.bulkWrite ops (some o)
        = RaukInventoryClient.bulkWrite ops none ++ [o]
    ∧ RaukInventoryClient.updateBatch updates (some o)
        = RaukInventoryClient.updateBatch updates none ++ [o]
    ∧ RaukInventory.findFlexible query (some o)
        = RaukInventory.findFlexible query none ++ [o]
    ∧ RaukInventory.updateBatch updates (some o)
        = RaukInventory.updateBatch updates none ++ [o] :=
  ⟨rfl, rfl, rfl, rfl, rfl, rfl, rfl, rfl, rfl, rfl, rfl, rfl⟩

/-- C9. For every query and options object: the soft-delete operation
encodes the findOneAndUpdate tuple with the synthetic deleted-status update
document (options appended only when supplied), while deleteOne and
deleteMany encode their tuples from the operation name and the query alone,
with no synthetic update document inserted. -/
theorem delete_variants_tuple_shapes (query o : Doc) :
    RaukInventoryClient.delete query none
        = [Doc.str "findOneAndUpdate", query, RaukInventoryClient.softDeleteDoc]
    ∧ RaukInventoryClient.delete query (some o)
        = [Doc.str "findOneAndUpdate", query, RaukInventoryClient.softDeleteDoc, o]
    ∧ RaukInventoryClient.softDeleteDoc
        = Doc.obj [("deleted", Doc.obj [("status", Doc.bool true)])]
    ∧ RaukInventoryClient.deleteOne query none = [Doc.str "deleteOne", query]
    ∧ RaukInventoryClient.deleteOne query (some o) = [Doc.str "deleteOne", query, o]
    ∧ RaukInventoryClient.deleteMany query none = [Doc.str "deleteMany", query]
    ∧ RaukInventoryClient.deleteMany query (some o) = [Doc.str "deleteMany", query, o] :=
  ⟨rfl, rfl, rfl, rfl, rfl, rfl, rfl⟩

end Rauk
